import Mathlib

/-!
Verification of the polling client in `src/index.js` (`listenFrom` and
`makeHttpRequest`).  The JavaScript is shallowly embedded: JS values are
modelled by the inductive `Json` (with `none : Option Json` standing for
`undefined`), JS truthiness by `truthy`/`jsTruthy`, numbers by `ℚ`
(timestamps and durations are exact small numbers, no float rounding is
exercised by the code paths modelled), and the asynchronous `setInterval`
loop by a fold of a `step` function over a list of cycle environments,
each environment recording the wall-clock reads (`Date.now()`) and the
network outcome observed during that cycle, serialized as the
concurrency model of the spec assumes.
-/

namespace HttpPubSub

/-- JSON/JS values (without `undefined`, which is `none : Option Json`). -/
inductive Json where
  | null : Json
  | bool : Bool → Json
  | num : ℚ → Json
  | str : String → Json
  | arr : List Json → Json
  | obj : List (String × Json) → Json

/-- JS truthiness of a value: `null`, `false`, `0` and `""` are falsy. -/
def truthy : Json → Bool
  | .null => false
  | .bool b => b
  | .num q => q != 0
  | .str s => s != ""
  | .arr _ => true
  | .obj _ => true

/-- JS truthiness of a possibly-`undefined` value. -/
def jsTruthy : Option Json → Bool
  | none => false
  | some v => truthy v

/-- The JS `typeof` operator. -/
def jsTypeof : Option Json → String
  | none => "undefined"
  | some (.bool _) => "boolean"
  | some (.num _) => "number"
  | some (.str _) => "string"
  | some _ => "object"

/-- Property lookup in the field list of a JSON object: the last binding
    of a duplicated key wins, as in `JSON.parse`. -/
def lookupLast : List (String × Json) → String → Option Json
  | [], _ => none
  | kv :: rest, k =>
      match lookupLast rest k with
      | some w => some w
      | none => if kv.1 = k then some kv.2 else none

/-- JS property access `v[k]`: `undefined` on non-objects. -/
def jsGet : Json → String → Option Json
  | .obj fs, k => lookupLast fs k
  | _, _ => none

/-- Chained JS property access on a possibly-`undefined` value. -/
def optGet : Option Json → String → Option Json
  | some v, k => jsGet v k
  | none, _ => none

/-- Is the value a JS number (a typeof check for number)? -/
def isNumJ : Option Json → Bool
  | some (.num _) => true
  | _ => false

/-- Extract a string, defaulting to `""` (used only under guards that
    ensured the value is a string). -/
def strOfJ : Option Json → String
  | some (.str s) => s
  | _ => ""

/-- Extract a number, defaulting to `0` (used only under guards that
    ensured the value is a number). -/
def numOfJ : Option Json → ℚ
  | some (.num q) => q
  | _ => 0

/-- Does `pat` occur at the head of the character list? -/
def leadMatch : List Char → List Char → Bool
  | [], _ => true
  | _ :: _, [] => false
  | p :: ps, c :: cs => (p = c) && leadMatch ps cs

/-- Does `pat` occur anywhere in the character list? -/
def subAt : List Char → List Char → Bool
  | pat, [] => leadMatch pat []
  | pat, c :: cs => leadMatch pat (c :: cs) || subAt pat cs

/-- JS `hay.includes(pat)`. -/
def hasSubstr (hay pat : String) : Bool := subAt pat.data hay.data

/-- JS `Math.round`: round half up (towards plus infinity). -/
def jsRound (q : ℚ) : ℤ := ⌊q + 1/2⌋

/-- `Math.round(ms / 1000 * 10) / 10` — elapsed seconds with one decimal. -/
def roundTenths (ms : ℚ) : ℚ := (jsRound (ms / 1000 * 10) : ℚ) / 10

/-- The options bag passed to `listenFrom` (lines 14-23 of `src/index.js`);
    `none` is an absent field.  `interval`, `debug` and `requestTimeout`
    are modelled at their documented types (number, boolean, number). -/
structure OptionsJs where
  type : Option Json := none
  timeout : Option Json := none
  retroBack : Option Json := none
  interval : Option ℚ := none
  debug : Option Bool := none
  endpoint : Option Json := none
  requestTimeout : Option ℚ := none

/-- The `config` object built at lines 43-64 of `src/index.js`. -/
structure Config where
  interval : ℚ
  debug : Bool
  endpoint : Json
  requestTimeout : ℚ
  type : String
  timeout : ℚ
  retroBack : ℚ

/-- Validation and config construction, lines 26-64 of `src/index.js`:
    the four truthiness/typeof argument checks, the endpoint resolution
    (`options.endpoint || process.env.HTTP_PUB_SUB_ENDPOINT`), the
    `||`-defaulting of `interval`, `debug`, `requestTimeout`, and the
    minimum-interval adjustment. -/
def listenFromInit (key : Option Json) (opts : OptionsJs) (envEndpoint : Option Json) :
    Except String Config :=
  if jsTruthy key = false ∨ jsTypeof key ≠ "string" then
    .error "Key deve ser uma string nao vazia"
  else if jsTruthy opts.type = false ∨ jsTypeof opts.type ≠ "string" then
    .error "options.type deve ser uma string nao vazia"
  else if jsTruthy opts.timeout = false ∨ jsTypeof opts.timeout ≠ "number" then
    .error "options.timeout deve ser um numero maior que 0"
  else if jsTruthy opts.retroBack = false ∨ jsTypeof opts.retroBack ≠ "number" then
    .error "options.retroBack deve ser um numero maior que 0"
  else
    let endpoint := if jsTruthy opts.endpoint then opts.endpoint else envEndpoint
    if jsTruthy endpoint = false then
      .error "Endpoint HTTP nao definido"
    else
      let interval0 : ℚ :=
        match opts.interval with
        | some q => if q != 0 then q else 10
        | none => 10
      .ok {
        interval := if interval0 < 1 then 1 else interval0,
        debug := opts.debug.getD false,
        endpoint := endpoint.getD .null,
        requestTimeout :=
          match opts.requestTimeout with
          | some q => if q != 0 then q else 5000
          | none => 5000,
        type := strOfJ opts.type,
        timeout := numOfJ opts.timeout,
        retroBack := numOfJ opts.retroBack }

/-- Outcome of one `makeHttpRequest` (lines 201-247) as observed by the
    polling loop; for a 2xx response the body is represented by its
    `JSON.parse` result (`Except.error` carries the SyntaxError message). -/
inductive FetchResult where
  | ok : Except String Json → FetchResult
  | httpError : Nat → String → FetchResult
  | netError : String → FetchResult
  | reqTimeout : ℚ → FetchResult

/-- Environment of one timer firing: the `Date.now()` reads made during
    the cycle (at the budget check, at message validation, at success
    resolution) and the network outcome of its fetch. -/
structure CycleEnv where
  tCheck : ℚ
  fetch : FetchResult
  tEval : ℚ
  tFinal : ℚ

/-- What one timer callback (lines 76-185) does, with the updated value
    of the `attempts` counter. -/
inductive CycleResult where
  | resolveTimeout : ℚ → Nat → CycleResult
  | resolveSuccess : Json → Json → ℚ → Nat → CycleResult
  | keepPolling : Nat → CycleResult
  | rejectError : String → Nat → CycleResult

/-- Updated attempts counter carried by a cycle result. -/
def CycleResult.attemptsOf : CycleResult → Nat
  | .resolveTimeout _ a => a
  | .resolveSuccess _ _ _ a => a
  | .keepPolling a => a
  | .rejectError _ a => a

/-- Is the cycle result a success resolution? -/
def CycleResult.isSuccess : CycleResult → Bool
  | .resolveSuccess _ _ _ _ => true
  | _ => false

/-- Is the cycle result the overall-timeout resolution? -/
def CycleResult.isTimeout : CycleResult → Bool
  | .resolveTimeout _ _ => true
  | _ => false

/-- Debug trace: a line is emitted only when `config.debug` is set. -/
def dbg (cfg : Config) (s : String) : List String := if cfg.debug then [s] else []

/-- The `catch` block, lines 171-184: errors whose message contains
    `JSON` or `parse` are fatal, everything else keeps polling. -/
def catchErr (cfg : Config) (att : Nat) (msg : String) : CycleResult × List String :=
  (if hasSubstr msg "JSON" || hasSubstr msg "parse" then
     .rejectError ("Erro ao processar resposta: " ++ msg) att
   else
     .keepPolling att,
   dbg cfg ("[HTTP-PUB-SUB] Erro na tentativa " ++ toString att ++ ": " ++ msg))

/-- Structural validation of a message, lines 116-118: truthy `type`,
    `data` and `meta`, numeric `meta.timestamp` and `meta.expiration`. -/
def structValid (m : Json) : Bool :=
  jsTruthy (jsGet m "type") && jsTruthy (jsGet m "data") && jsTruthy (jsGet m "meta") &&
  isNumJ (optGet (jsGet m "meta") "timestamp") && isNumJ (optGet (jsGet m "meta") "expiration")

/-- Strict equality `message.type === config.type` for a truthy `type`
    field: true exactly when the field is the string `t`. -/
def isTypeMatch : Option Json → String → Bool
  | some (.str s), t => s == t
  | _, _ => false

/-- Lines 106-169: lookup of `key`, structural validation, type check,
    expiration check, retroBack check, success resolution. -/
def processMessages (cfg : Config) (key : String) (start : ℚ) (att : Nat) (e : CycleEnv)
    (messages : Json) : CycleResult × List String :=
  if jsTruthy (jsGet messages key) = false then
    (.keepPolling att, dbg cfg ("[HTTP-PUB-SUB] Mensagem com key " ++ key ++ " nao encontrada"))
  else
    let m := (jsGet messages key).getD .null
    if structValid m = false then
      (.keepPolling att, dbg cfg "[HTTP-PUB-SUB] Mensagem com estrutura invalida")
    else if isTypeMatch (jsGet m "type") cfg.type = false then
      (.keepPolling att, dbg cfg "[HTTP-PUB-SUB] Tipo nao corresponde")
    else
      let now : ℚ := ((⌊e.tEval / 1000⌋ : ℤ) : ℚ)
      let messageTime := numOfJ (optGet (jsGet m "meta") "timestamp")
      let expirationTime := messageTime + numOfJ (optGet (jsGet m "meta") "expiration")
      if expirationTime < now then
        (.keepPolling att, dbg cfg "[HTTP-PUB-SUB] Mensagem expirada")
      else if messageTime < now - cfg.retroBack then
        (.keepPolling att, dbg cfg "[HTTP-PUB-SUB] Mensagem fora do periodo retroBack")
      else
        (.resolveSuccess ((jsGet m "data").getD .null) ((jsGet m "meta").getD .null)
           (roundTenths (e.tFinal - start)) att,
         dbg cfg "[HTTP-PUB-SUB] Mensagem valida encontrada")

/-- The `try`/`catch` body of the callback after `attempts++`: the fetch
    outcome is dispatched, rejections and the `JSON.parse` throw landing
    in the `catch` with the messages built at lines 231, 237 and 242. -/
def afterBudget (cfg : Config) (key : String) (start : ℚ) (att : Nat) (e : CycleEnv) :
    CycleResult × List String :=
  match e.fetch with
  | .ok (.ok messages) => processMessages cfg key start att e messages
  | .ok (.error m) => catchErr cfg att m
  | .httpError st sm => catchErr cfg att ("HTTP " ++ toString st ++ ": " ++ sm)
  | .netError msg => catchErr cfg att ("Erro de rede: " ++ msg)
  | .reqTimeout t => catchErr cfg att ("Timeout da requisicao (" ++ toString t ++ "ms)")

/-- One full timer callback, lines 76-185: overall-budget check first
    (without incrementing `attempts`), then `attempts++` and the
    fetch/validate body.  Also returns the debug trace of the cycle. -/
def runCycleLog (cfg : Config) (key : String) (start : ℚ) (att : Nat) (e : CycleEnv) :
    CycleResult × List String :=
  if cfg.timeout * 1000 ≤ e.tCheck - start then
    (.resolveTimeout (roundTenths (e.tCheck - start)) att, [])
  else
    let r := afterBudget cfg key start (att + 1) e
    (r.1, dbg cfg ("[HTTP-PUB-SUB] Tentativa " ++ toString (att + 1)) ++ r.2)

/-- The observable effect of one timer callback. -/
def runCycle (cfg : Config) (key : String) (start : ℚ) (att : Nat) (e : CycleEnv) :
    CycleResult :=
  (runCycleLog cfg key start att e).1

/-- Terminal resolution of the promise returned by `listenFrom`. -/
inductive Resolution where
  | timeoutRes : ℚ → Nat → Resolution
  | successRes : Json → Json → ℚ → Nat → Resolution
  | rejectedRes : String → Resolution

/-- State of one `listenFrom` call between timer firings: the `attempts`
    counter, whether `clearInterval` has been called, and the resolution
    of the promise if it has settled. -/
structure LoopState where
  attempts : Nat
  timerActive : Bool
  resolved : Option Resolution

/-- Initial state, lines 66-68: zero attempts, timer armed, unsettled. -/
def initState : LoopState := ⟨0, true, none⟩

/-- One timer firing: after `clearInterval` no callback runs again, so an
    inactive state is unchanged; otherwise the callback executes. -/
def step (cfg : Config) (key : String) (start : ℚ) (s : LoopState) (e : CycleEnv) :
    LoopState :=
  if s.timerActive = false then s
  else
    match runCycle cfg key start s.attempts e with
    | .keepPolling a => ⟨a, true, none⟩
    | .resolveTimeout el a => ⟨a, false, some (.timeoutRes el a)⟩
    | .resolveSuccess d m el a => ⟨a, false, some (.successRes d m el a)⟩
    | .rejectError msg a => ⟨a, false, some (.rejectedRes msg)⟩

/-- The whole polling loop over a schedule of timer firings. -/
def run (cfg : Config) (key : String) (start : ℚ) (envs : List CycleEnv) : LoopState :=
  envs.foldl (step cfg key start) initState

/-- Number of fetch attempts initiated along a schedule: one per cycle
    that fires while the timer is active and passes the budget check. -/
def fetchCount (cfg : Config) (key : String) (start : ℚ) :
    LoopState → List CycleEnv → Nat
  | _, [] => 0
  | s, e :: rest =>
      (if s.timerActive = true ∧ e.tCheck - start < cfg.timeout * 1000 then 1 else 0) +
        fetchCount cfg key start (step cfg key start s e) rest

/-- Did validation succeed (no exception raised before polling started)? -/
def isOkE : Except String Config → Bool
  | .ok _ => true
  | .error _ => false

/-- A message envelope with the three fields of lines 116-123. -/
def mkMsg (ty d meta : Json) : Json :=
  .obj [("type", ty), ("data", d), ("meta", meta)]

/-!  Helper lemmas about one cycle. -/

theorem jsTruthy_some (v : Json) : jsTruthy (some v) = truthy v := rfl

theorem structValid_truthy (m : Json) (h : structValid m = true) : truthy m = true := by
  cases m <;> simp_all [structValid, jsGet, jsTruthy, truthy]

theorem catchErr_fst_attemptsOf (cfg : Config) (att : Nat) (msg : String) :
    ((catchErr cfg att msg).1).attemptsOf = att := by
  simp only [catchErr]
  split <;> rfl

theorem catchErr_fst_isTimeout (cfg : Config) (att : Nat) (msg : String) :
    ((catchErr cfg att msg).1).isTimeout = false := by
  simp only [catchErr]
  split <;> rfl

theorem processMessages_fst_attemptsOf (cfg : Config) (key : String) (start : ℚ) (att : Nat)
    (e : CycleEnv) (messages : Json) :
    ((processMessages cfg key start att e messages).1).attemptsOf = att := by
  simp only [processMessages]
  split_ifs <;> rfl

theorem processMessages_fst_isTimeout (cfg : Config) (key : String) (start : ℚ) (att : Nat)
    (e : CycleEnv) (messages : Json) :
    ((processMessages cfg key start att e messages).1).isTimeout = false := by
  simp only [processMessages]
  split_ifs <;> rfl

theorem afterBudget_fst_attemptsOf (cfg : Config) (key : String) (start : ℚ) (att : Nat)
    (e : CycleEnv) :
    ((afterBudget cfg key start att e).1).attemptsOf = att := by
  obtain ⟨tC, f, tE, tF⟩ := e
  cases f with
  | ok p =>
      cases p with
      | ok messages => exact processMessages_fst_attemptsOf ..
      | error m => exact catchErr_fst_attemptsOf ..
  | httpError st sm => exact catchErr_fst_attemptsOf ..
  | netError msg => exact catchErr_fst_attemptsOf ..
  | reqTimeout t => exact catchErr_fst_attemptsOf ..

theorem afterBudget_fst_isTimeout (cfg : Config) (key : String) (start : ℚ) (att : Nat)
    (e : CycleEnv) :
    ((afterBudget cfg key start att e).1).isTimeout = false := by
  obtain ⟨tC, f, tE, tF⟩ := e
  cases f with
  | ok p =>
      cases p with
      | ok messages => exact processMessages_fst_isTimeout ..
      | error m => exact catchErr_fst_isTimeout ..
  | httpError st sm => exact catchErr_fst_isTimeout ..
  | netError msg => exact catchErr_fst_isTimeout ..
  | reqTimeout t => exact catchErr_fst_isTimeout ..

theorem runCycle_budget (cfg : Config) (key : String) (start : ℚ) (att : Nat) (e : CycleEnv)
    (h : cfg.timeout * 1000 ≤ e.tCheck - start) :
    runCycle cfg key start att e = .resolveTimeout (roundTenths (e.tCheck - start)) att := by
  simp [runCycle, runCycleLog, h]

theorem runCycle_no_budget (cfg : Config) (key : String) (start : ℚ) (att : Nat) (e : CycleEnv)
    (h : e.tCheck - start < cfg.timeout * 1000) :
    runCycle cfg key start att e = (afterBudget cfg key start (att + 1) e).1 := by
  simp [runCycle, runCycleLog, not_le.mpr h]

theorem runCycle_attemptsOf (cfg : Config) (key : String) (start : ℚ) (att : Nat) (e : CycleEnv)
    (h : e.tCheck - start < cfg.timeout * 1000) :
    (runCycle cfg key start att e).attemptsOf = att + 1 := by
  rw [runCycle_no_budget cfg key start att e h]
  exact afterBudget_fst_attemptsOf ..

theorem runCycle_timeout_iff (cfg : Config) (key : String) (start : ℚ) (att : Nat) (e : CycleEnv)
    (el : ℚ) (a : Nat) :
    runCycle cfg key start att e = .resolveTimeout el a ↔
      cfg.timeout * 1000 ≤ e.tCheck - start ∧ el = roundTenths (e.tCheck - start) ∧ a = att := by
  constructor
  · intro h
    by_cases hb : cfg.timeout * 1000 ≤ e.tCheck - start
    · rw [runCycle_budget cfg key start att e hb] at h
      cases h
      exact ⟨hb, rfl, rfl⟩
    · exfalso
      rw [runCycle_no_budget cfg key start att e (not_le.mp hb)] at h
      have := afterBudget_fst_isTimeout cfg key start (att + 1) e
      rw [h] at this
      simp [CycleResult.isTimeout] at this
  · rintro ⟨hb, rfl, rfl⟩
    exact runCycle_budget _ _ _ _ _ hb

/-!  Helper lemmas about the loop state machine. -/

theorem step_inactive (cfg : Config) (key : String) (start : ℚ) (s : LoopState) (e : CycleEnv)
    (h : s.timerActive = false) : step cfg key start s e = s := by
  simp [step, h]

theorem foldl_step_inactive (cfg : Config) (key : String) (start : ℚ) (s : LoopState)
    (h : s.timerActive = false) :
    ∀ envs : List CycleEnv, List.foldl (step cfg key start) s envs = s := by
  intro envs
  induction envs with
  | nil => rfl
  | cons e rest ih => rw [List.foldl_cons, step_inactive cfg key start s e h, ih]

/-- Invariant of reachable loop states: a settled promise has a stopped
    timer, an armed timer or a settled promise (never neither), and a
    Timeout resolution reports the current attempts counter. -/
def LoopInv (s : LoopState) : Prop :=
  (s.resolved.isSome = true → s.timerActive = false) ∧
  (s.timerActive = true ∨ s.resolved.isSome = true) ∧
  (∀ el a, s.resolved = some (.timeoutRes el a) → s.attempts = a)

theorem initState_inv : LoopInv initState := by
  refine ⟨?_, Or.inl rfl, ?_⟩ <;> simp [initState]

theorem step_inv (cfg : Config) (key : String) (start : ℚ) (s : LoopState) (e : CycleEnv)
    (h : LoopInv s) : LoopInv (step cfg key start s e) := by
  obtain ⟨h1, h2, h3⟩ := h
  by_cases ha : s.timerActive = false
  · rw [step_inactive cfg key start s e ha]
    exact ⟨h1, h2, h3⟩
  · simp only [step, if_neg ha]
    cases hc : runCycle cfg key start s.attempts e with
    | keepPolling a => exact ⟨by simp, Or.inl rfl, by simp⟩
    | resolveTimeout el a => exact ⟨fun _ => rfl, Or.inr rfl, by simp⟩
    | resolveSuccess d m el a => exact ⟨fun _ => rfl, Or.inr rfl, by simp⟩
    | rejectError msg a => exact ⟨fun _ => rfl, Or.inr rfl, by simp⟩

theorem foldl_step_inv (cfg : Config) (key : String) (start : ℚ) :
    ∀ (envs : List CycleEnv) (s : LoopState), LoopInv s →
      LoopInv (List.foldl (step cfg key start) s envs) := by
  intro envs
  induction envs with
  | nil => exact fun s h => h
  | cons e rest ih =>
      intro s h
      exact ih (step cfg key start s e) (step_inv cfg key start s e h)

theorem run_inv (cfg : Config) (key : String) (start : ℚ) (envs : List CycleEnv) :
    LoopInv (run cfg key start envs) :=
  foldl_step_inv cfg key start envs initState initState_inv

theorem step_attempts (cfg : Config) (key : String) (start : ℚ) (s : LoopState) (e : CycleEnv) :
    (step cfg key start s e).attempts =
      s.attempts +
        (if s.timerActive = true ∧ e.tCheck - start < cfg.timeout * 1000 then 1 else 0) := by
  by_cases ha : s.timerActive = false
  · rw [step_inactive cfg key start s e ha]
    simp [ha]
  · have ha' : s.timerActive = true := by revert ha; cases s.timerActive <;> simp
    by_cases hb : e.tCheck - start < cfg.timeout * 1000
    · have hat : (runCycle cfg key start s.attempts e).attemptsOf = s.attempts + 1 :=
        runCycle_attemptsOf cfg key start s.attempts e hb
      simp only [step, if_neg ha, if_pos (And.intro ha' hb)]
      cases hc : runCycle cfg key start s.attempts e <;>
        rw [hc] at hat <;> simpa [CycleResult.attemptsOf] using hat
    · have ht : runCycle cfg key start s.attempts e =
          .resolveTimeout (roundTenths (e.tCheck - start)) s.attempts :=
        runCycle_budget cfg key start s.attempts e (not_lt.mp hb)
      simp [step, if_neg ha, ht, hb]

theorem foldl_attempts (cfg : Config) (key : String) (start : ℚ) :
    ∀ (envs : List CycleEnv) (s : LoopState),
      (List.foldl (step cfg key start) s envs).attempts =
        s.attempts + fetchCount cfg key start s envs := by
  intro envs
  induction envs with
  | nil => intro s; rfl
  | cons e rest ih =>
      intro s
      rw [List.foldl_cons, ih (step cfg key start s e), fetchCount,
        step_attempts cfg key start s e]
      ring

theorem run_timeout_source (cfg : Config) (key : String) (start : ℚ) (el : ℚ) (a : Nat) :
    ∀ (envs : List CycleEnv) (s : LoopState), s.timerActive = true → s.resolved = none →
      (List.foldl (step cfg key start) s envs).resolved = some (.timeoutRes el a) →
      ∃ e ∈ envs, cfg.timeout * 1000 ≤ e.tCheck - start ∧
        el = roundTenths (e.tCheck - start) := by
  intro envs
  induction envs with
  | nil =>
      intro s _ hnone h
      rw [List.foldl_nil, hnone] at h
      cases h
  | cons e rest ih =>
      intro s hact hnone h
      rw [List.foldl_cons] at h
      by_cases ha : s.timerActive = false
      · rw [hact] at ha; cases ha
      · rw [step] at h
        rw [if_neg ha] at h
        cases hc : runCycle cfg key start s.attempts e with
        | keepPolling a0 =>
            rw [hc] at h
            obtain ⟨e', he', hrest⟩ := ih ⟨a0, true, none⟩ rfl rfl h
            exact ⟨e', List.mem_cons_of_mem e he', hrest⟩
        | resolveTimeout el0 a0 =>
            rw [hc] at h
            rw [foldl_step_inactive cfg key start _ rfl rest] at h
            simp only [Option.some.injEq, Resolution.timeoutRes.injEq] at h
            obtain ⟨hel, -⟩ := h
            obtain ⟨hb, helr, -⟩ := (runCycle_timeout_iff cfg key start s.attempts e el0 a0).mp hc
            exact ⟨e, List.mem_cons_self e rest, hb, by rw [← hel, helr]⟩
        | resolveSuccess d m el0 a0 =>
            rw [hc] at h
            rw [foldl_step_inactive cfg key start _ rfl rest] at h
            simp at h
        | rejectError msg a0 =>
            rw [hc] at h
            rw [foldl_step_inactive cfg key start _ rfl rest] at h
            simp at h

theorem run_settles (cfg : Config) (key : String) (start : ℚ) :
    ∀ (envs : List CycleEnv) (s : LoopState), LoopInv s →
      (s.resolved.isSome = true ∨ ∃ e ∈ envs, cfg.timeout * 1000 ≤ e.tCheck - start) →
      (List.foldl (step cfg key start) s envs).resolved.isSome = true := by
  intro envs
  induction envs with
  | nil =>
      intro s _ h
      rw [List.foldl_nil]
      rcases h with h | ⟨e, he, -⟩
      · exact h
      · cases he
  | cons e rest ih =>
      intro s hinv h
      rw [List.foldl_cons]
      rcases hsome : s.resolved.isSome with hfalse | htrue
      · -- promise unsettled: the timer is still armed
        have hact : s.timerActive = true := by
          rcases hinv.2.1 with h' | h'
          · exact h'
          · rw [hsome] at h'; cases h'
        have hact' : ¬ s.timerActive = false := by rw [hact]; simp
        rcases h with h | ⟨e', he', hb⟩
        · rw [hsome] at h; cases h
        · rcases List.mem_cons.mp he' with rfl | he'rest
          · -- the budget-exceeded firing happens now: the cycle resolves Timeout
            have ht := runCycle_budget cfg key start s.attempts e' hb
            refine ih (step cfg key start s e') (step_inv cfg key start s e' hinv) (Or.inl ?_)
            simp only [step, if_neg hact', ht]
            rfl
          · -- the budget-exceeded firing is later in the schedule
            refine ih (step cfg key start s e) (step_inv cfg key start s e hinv) ?_
            by_cases hres : (step cfg key start s e).resolved.isSome = true
            · exact Or.inl hres
            · exact Or.inr ⟨e', he'rest, hb⟩
      · -- promise already settled: nothing changes
        have hia : s.timerActive = false := hinv.1 hsome
        rw [step_inactive cfg key start s e hia,
          foldl_step_inactive cfg key start s hia rest]
        exact hsome

/-!  Claim theorems. -/

/-- C1: on a cycle that proceeds past the budget check, a message found
    under the requested key that passes structural validation produces the
    Success resolution iff it is acceptable at the evaluation instant
    `now = floor(tEval / 1000)`: its `type` equals the requested type,
    `now <= timestamp + expiration`, and `timestamp >= now - retroBack`;
    both time boundaries are inclusive, and a type-mismatched, expired or
    too-old message never yields Success on that cycle. -/
theorem success_iff_acceptable (cfg : Config) (key : String) (start : ℚ) (att : Nat)
    (e : CycleEnv) (msgs m : Json)
    (hb : e.tCheck - start < cfg.timeout * 1000)
    (hf : e.fetch = .ok (.ok msgs))
    (hm : jsGet msgs key = some m)
    (hv : structValid m = true) :
    (runCycle cfg key start att e).isSuccess = true ↔
      (isTypeMatch (jsGet m "type") cfg.type = true ∧
       ((⌊e.tEval / 1000⌋ : ℤ) : ℚ) ≤
         numOfJ (optGet (jsGet m "meta") "timestamp") +
           numOfJ (optGet (jsGet m "meta") "expiration") ∧
       ((⌊e.tEval / 1000⌋ : ℤ) : ℚ) - cfg.retroBack ≤
         numOfJ (optGet (jsGet m "meta") "timestamp")) := by
  have ht : truthy m = true := structValid_truthy m hv
  rw [runCycle_no_budget cfg key start att e hb]
  simp only [afterBudget, hf]
  simp only [processMessages, hm, jsTruthy_some, ht, Option.getD_some, hv]
  norm_num
  split_ifs with h1 h2 h3
  · simp [CycleResult.isSuccess, h1]
  · simp only [CycleResult.isSuccess]
    constructor
    · intro hfalse; cases hfalse
    · rintro ⟨-, hle, -⟩
      exfalso
      linarith
  · simp only [CycleResult.isSuccess]
    constructor
    · intro hfalse; cases hfalse
    · rintro ⟨-, -, hle⟩
      exfalso
      linarith
  · simp only [CycleResult.isSuccess, true_iff]
    refine ⟨by revert h1; cases isTypeMatch (jsGet m "type") cfg.type <;> simp, ?_, ?_⟩
      <;> linarith [not_lt.mp h2, not_lt.mp h3]

/-- C1 witness: a concrete cycle at both inclusive boundaries
    (`now = timestamp + expiration` and `timestamp = now - retroBack`)
    resolves with Success. -/
theorem success_iff_acceptable_witness :
    (runCycle
      { interval := 10, debug := false, endpoint := .str "http://x", requestTimeout := 5000,
        type := "t", timeout := 120, retroBack := 60 }
      "k1" 0 0
      { tCheck := 1000,
        fetch := .ok (.ok (.obj [("k1",
          .obj [("type", .str "t"), ("data", .str "X"),
                ("meta", .obj [("timestamp", .num 340), ("expiration", .num 60)])])])),
        tEval := 400000, tFinal := 401000 }).isSuccess = true :=
  (success_iff_acceptable _ "k1" 0 0 _ _
      (.obj [("type", .str "t"), ("data", .str "X"),
             ("meta", .obj [("timestamp", .num 340), ("expiration", .num 60)])])
      (by norm_num) rfl (by simp +decide [jsGet, lookupLast]) (by decide)).mpr
    ⟨by decide, by norm_num +decide [optGet, jsGet, lookupLast, numOfJ],
     by norm_num +decide [optGet, jsGet, lookupLast, numOfJ]⟩

/-- C2: on any schedule whose clock eventually exhausts the overall
    budget (as real time always does for a positive finite timeout), the
    call reaches a terminal resolution, and that resolution is unique:
    processing any further cycles leaves the whole loop state unchanged
    (no second resolution, frozen attempts counter) and the timer is
    stopped, so no further poll cycle has any effect. -/
theorem exactly_one_resolution (cfg : Config) (key : String) (start : ℚ)
    (envs : List CycleEnv)
    (hclock : ∃ e ∈ envs, cfg.timeout * 1000 ≤ e.tCheck - start) :
    ∃ r : Resolution,
      (run cfg key start envs).resolved = some r ∧
      (run cfg key start envs).timerActive = false ∧
      ∀ envs2 : List CycleEnv,
        run cfg key start (envs ++ envs2) = run cfg key start envs := by
  have hsome : (run cfg key start envs).resolved.isSome = true :=
    run_settles cfg key start envs initState initState_inv (Or.inr hclock)
  obtain ⟨r, hr⟩ := Option.isSome_iff_exists.mp hsome
  have hia : (run cfg key start envs).timerActive = false :=
    (run_inv cfg key start envs).1 hsome
  refine ⟨r, hr, hia, fun envs2 => ?_⟩
  unfold run
  rw [List.foldl_append]
  exact foldl_step_inactive cfg key start _ hia envs2

/-- C2 witness: with a 10 second budget and an empty endpoint, the
    schedule whose second firing is at 10 s resolves, and the state is
    frozen afterwards. -/
theorem exactly_one_resolution_witness :
    ∃ r : Resolution,
      (run
        { interval := 5, debug := false, endpoint := .str "http://x", requestTimeout := 5000,
          type := "t", timeout := 10, retroBack := 60 }
        "k1" 0
        [⟨5000, .ok (.ok (.obj [])), 5000, 5000⟩,
         ⟨10000, .ok (.ok (.obj [])), 10000, 10000⟩]).resolved = some r ∧
      (run
        { interval := 5, debug := false, endpoint := .str "http://x", requestTimeout := 5000,
          type := "t", timeout := 10, retroBack := 60 }
        "k1" 0
        [⟨5000, .ok (.ok (.obj [])), 5000, 5000⟩,
         ⟨10000, .ok (.ok (.obj [])), 10000, 10000⟩]).timerActive = false ∧
      ∀ envs2 : List CycleEnv,
        run
          { interval := 5, debug := false, endpoint := .str "http://x", requestTimeout := 5000,
            type := "t", timeout := 10, retroBack := 60 }
          "k1" 0
          ([⟨5000, .ok (.ok (.obj [])), 5000, 5000⟩,
            ⟨10000, .ok (.ok (.obj [])), 10000, 10000⟩] ++ envs2) =
        run
          { interval := 5, debug := false, endpoint := .str "http://x", requestTimeout := 5000,
            type := "t", timeout := 10, retroBack := 60 }
          "k1" 0
          [⟨5000, .ok (.ok (.obj [])), 5000, 5000⟩,
           ⟨10000, .ok (.ok (.obj [])), 10000, 10000⟩] :=
  exactly_one_resolution _ "k1" 0 _
    ⟨⟨10000, .ok (.ok (.obj [])), 10000, 10000⟩, by simp, by norm_num⟩

/-- C10: a Timeout resolution only ever arises from a cycle whose budget
    check saw an elapsed wall-clock time of at least the full budget
    (`timeout * 1000` milliseconds), and the reported elapsed time is the
    rounded elapsed time measured at that check; Timeout is never
    reported before the budget is exhausted. -/
theorem timeout_requires_budget_exhausted (cfg : Config) (key : String) (start : ℚ)
    (envs : List CycleEnv) (el : ℚ) (a : Nat)
    (h : (run cfg key start envs).resolved = some (.timeoutRes el a)) :
    ∃ e ∈ envs, cfg.timeout * 1000 ≤ e.tCheck - start ∧
      el = roundTenths (e.tCheck - start) :=
  run_timeout_source cfg key start el a envs initState rfl rfl h

/-- C10 witness: the concrete Timeout run above indeed contains a firing
    whose elapsed time reached the budget. -/
theorem timeout_requires_budget_exhausted_witness :
    ∃ e ∈ [(⟨5000, FetchResult.ok (.ok (.obj [])), 5000, 5000⟩ : CycleEnv),
           ⟨10000, .ok (.ok (.obj [])), 10000, 10000⟩],
      (10 : ℚ) * 1000 ≤ e.tCheck - 0 ∧ (10 : ℚ) = roundTenths (e.tCheck - 0) :=
  timeout_requires_budget_exhausted
    { interval := 5, debug := false, endpoint := .str "http://x", requestTimeout := 5000,
      type := "t", timeout := 10, retroBack := 60 }
    "k1" 0
    [⟨5000, .ok (.ok (.obj [])), 5000, 5000⟩,
     ⟨10000, .ok (.ok (.obj [])), 10000, 10000⟩]
    10 1
    (by norm_num +decide [run, step, initState, runCycle, runCycleLog, afterBudget,
      processMessages, jsGet, lookupLast, jsTruthy, truthy, roundTenths, jsRound,
      List.foldl])

/-- C6: the attempts counter counts exactly the fetch attempts initiated:
    a cycle whose budget check fires resolves Timeout reporting the
    counter WITHOUT incrementing it, a cycle that proceeds to a fetch
    increments the counter exactly once before fetching, and a Timeout
    resolution of a whole run reports exactly the number of fetches
    initiated along the schedule. -/
theorem attempts_counts_initiated_fetches (cfg : Config) (key : String) (start : ℚ)
    (envs : List CycleEnv) (el : ℚ) (a : Nat) :
    (∀ (att : Nat) (e : CycleEnv), cfg.timeout * 1000 ≤ e.tCheck - start →
        runCycle cfg key start att e = .resolveTimeout (roundTenths (e.tCheck - start)) att) ∧
    (∀ (att : Nat) (e : CycleEnv), e.tCheck - start < cfg.timeout * 1000 →
        (runCycle cfg key start att e).attemptsOf = att + 1) ∧
    ((run cfg key start envs).resolved = some (.timeoutRes el a) →
        a = fetchCount cfg key start initState envs) := by
  refine ⟨fun att e h => runCycle_budget cfg key start att e h,
    fun att e h => runCycle_attemptsOf cfg key start att e h, fun h => ?_⟩
  have h1 : (run cfg key start envs).attempts = a := (run_inv cfg key start envs).2.2 el a h
  have h2 : (run cfg key start envs).attempts =
      initState.attempts + fetchCount cfg key start initState envs :=
    foldl_attempts cfg key start envs initState
  rw [h1] at h2
  simpa [initState] using h2

/-- C6 witness: budget-triggered cycle reports the counter unchanged, a
    fetching cycle increments it once, and the Timeout run above reports
    attempts equal to its one initiated fetch. -/
theorem attempts_counts_initiated_fetches_witness :
    (runCycle
      { interval := 5, debug := false, endpoint := .str "http://x", requestTimeout := 5000,
        type := "t", timeout := 10, retroBack := 60 }
      "k1" 0 3 ⟨10000, .ok (.ok (.obj [])), 10000, 10000⟩ =
        .resolveTimeout (roundTenths ((10000 : ℚ) - 0)) 3) ∧
    ((runCycle
      { interval := 5, debug := false, endpoint := .str "http://x", requestTimeout := 5000,
        type := "t", timeout := 10, retroBack := 60 }
      "k1" 0 0 ⟨5000, .ok (.ok (.obj [])), 5000, 5000⟩).attemptsOf = 0 + 1) ∧
    (1 = fetchCount
      { interval := 5, debug := false, endpoint := .str "http://x", requestTimeout := 5000,
        type := "t", timeout := 10, retroBack := 60 }
      "k1" 0 initState
      [⟨5000, .ok (.ok (.obj [])), 5000, 5000⟩,
       ⟨10000, .ok (.ok (.obj [])), 10000, 10000⟩]) :=
  ⟨(attempts_counts_initiated_fetches _ "k1" 0 [] 0 0).1 3
      ⟨10000, .ok (.ok (.obj [])), 10000, 10000⟩ (by norm_num),
   (attempts_counts_initiated_fetches _ "k1" 0 [] 0 0).2.1 0
      ⟨5000, .ok (.ok (.obj [])), 5000, 5000⟩ (by norm_num),
   (attempts_counts_initiated_fetches _ "k1" 0
      [⟨5000, .ok (.ok (.obj [])), 5000, 5000⟩,
       ⟨10000, .ok (.ok (.obj [])), 10000, 10000⟩] 10 1).2.2
      (by norm_num +decide [run, step, initState, runCycle, runCycleLog, afterBudget,
        processMessages, jsGet, lookupLast, jsTruthy, truthy, roundTenths, jsRound,
        List.foldl])⟩

/-- Per-cycle shape of a JSON-parse failure: the thrown message lands in
    the catch block and, containing the substring JSON or parse, is
    classified fatal. -/
theorem runCycle_parse_error (cfg : Config) (key : String) (start : ℚ) (att : Nat)
    (e : CycleEnv) (m : String)
    (hb : e.tCheck - start < cfg.timeout * 1000)
    (hf : e.fetch = .ok (.error m))
    (hm : hasSubstr m "JSON" = true ∨ hasSubstr m "parse" = true) :
    runCycle cfg key start att e =
      .rejectError ("Erro ao processar resposta: " ++ m) (att + 1) := by
  rw [runCycle_no_budget cfg key start att e hb]
  simp only [afterBudget, hf, catchErr]
  rcases hm with hm | hm <;> simp [hm]

/-- C3: if, while the loop is still polling, the fetched body fails JSON
    parsing (the V8 SyntaxError message contains `JSON` or `parse`), the
    call immediately rejects with the ParseError message — a raised
    error, not the Timeout outcome — the timer stops, and the loop state
    never changes again over any continuation of the schedule: zero
    further attempts occur. -/
theorem parse_error_rejects_immediately (cfg : Config) (key : String) (start : ℚ)
    (envs1 envs2 : List CycleEnv) (e : CycleEnv) (m : String)
    (hb : e.tCheck - start < cfg.timeout * 1000)
    (hf : e.fetch = .ok (.error m))
    (hm : hasSubstr m "JSON" = true ∨ hasSubstr m "parse" = true)
    (hact : (run cfg key start envs1).timerActive = true) :
    run cfg key start (envs1 ++ e :: envs2) =
      { attempts := (run cfg key start envs1).attempts + 1,
        timerActive := false,
        resolved := some (.rejectedRes ("Erro ao processar resposta: " ++ m)) } := by
  have hact' : ¬ (run cfg key start envs1).timerActive = false := by rw [hact]; simp
  have hstep : step cfg key start (run cfg key start envs1) e =
      { attempts := (run cfg key start envs1).attempts + 1,
        timerActive := false,
        resolved := some (.rejectedRes ("Erro ao processar resposta: " ++ m)) } := by
    simp only [step, if_neg hact',
      runCycle_parse_error cfg key start (run cfg key start envs1).attempts e m hb hf hm]
  unfold run
  rw [List.foldl_append, List.foldl_cons]
  rw [show List.foldl (step cfg key start) initState envs1 = run cfg key start envs1 from rfl,
    hstep]
  exact foldl_step_inactive cfg key start _ rfl envs2

/-- C3 witness: a malformed body on the very first attempt rejects at
    once with the ParseError message and one attempt consumed. -/
theorem parse_error_rejects_immediately_witness :
    run
      { interval := 10, debug := false, endpoint := .str "http://x", requestTimeout := 5000,
        type := "t", timeout := 120, retroBack := 60 }
      "k1" 0
      ([] ++ ⟨1000, .ok (.error "Unexpected end of JSON input"), 1000, 1000⟩ ::
        [⟨11000, .ok (.ok (.obj [])), 11000, 11000⟩]) =
      { attempts := 0 + 1,
        timerActive := false,
        resolved := some (.rejectedRes
          ("Erro ao processar resposta: " ++ "Unexpected end of JSON input")) } :=
  parse_error_rejects_immediately _ "k1" 0 [] _ _ "Unexpected end of JSON input"
    (by norm_num) rfl (Or.inl (by decide)) rfl

/-- C4: the polling loop classifies errors by searching the message for
    the substrings JSON and parse, so a network-layer failure is NOT
    always swallowed: a non-2xx response whose status text contains
    parse (message `HTTP 500: cannot parse upstream`) is rejected as a
    fatal ParseError, contradicting both the claim and the comment in
    the code itself that only non-network errors stop polling — while an
    ordinary non-2xx failure (`HTTP 500: Internal Server Error`) is
    swallowed and the loop keeps polling. -/
theorem network_error_with_parse_text_is_surfaced :
    (runCycle
      { interval := 10, debug := false, endpoint := .str "http://x", requestTimeout := 5000,
        type := "t", timeout := 120, retroBack := 60 }
      "k1" 0 0 ⟨1000, .httpError 500 "cannot parse upstream", 2000, 2000⟩ =
      .rejectError "Erro ao processar resposta: HTTP 500: cannot parse upstream" 1) ∧
    (runCycle
      { interval := 10, debug := false, endpoint := .str "http://x", requestTimeout := 5000,
        type := "t", timeout := 120, retroBack := 60 }
      "k1" 0 0 ⟨1000, .httpError 500 "Internal Server Error", 2000, 2000⟩ =
      .keepPolling 1) := by
  constructor <;>
    norm_num +decide [runCycle, runCycleLog, afterBudget, catchErr, hasSubstr, subAt,
      leadMatch, dbg]

/-- C5: the argument validation only rejects falsy or non-number values
    (a falsiness test plus a typeof test for number), so the negative
    numbers `timeout = -5` and `retroBack = -7` — not positive, which
    the error text of the code itself says is required — pass validation
    and the call proceeds to polling with a negative budget instead of
    raising InvalidArgument. -/
theorem negative_timeout_passes_validation :
    listenFromInit (some (.str "user@example.com"))
      { type := some (.str "t"), timeout := some (.num (-5)), retroBack := some (.num (-7)),
        endpoint := some (.str "http://x") } none =
      .ok { interval := 10, debug := false, endpoint := .str "http://x",
            requestTimeout := 5000, type := "t", timeout := -5, retroBack := -7 } := by
  norm_num +decide [listenFromInit, jsTruthy, truthy, jsTypeof, strOfJ, numOfJ]

/-- C7 counterexample: supplying `intervalSeconds = 0` — a value below
    1 — does not give an effective interval of 1: the `|| 10` defaulting
    treats the falsy 0 as unset, so the effective interval is 10. -/
theorem interval_zero_not_clamped_to_one :
    (listenFromInit (some (.str "k"))
      { type := some (.str "t"), timeout := some (.num 120), retroBack := some (.num 60),
        interval := some 0, endpoint := some (.str "http://x") } none =
      .ok { interval := 10, debug := false, endpoint := .str "http://x",
            requestTimeout := 5000, type := "t", timeout := 120, retroBack := 60 }) ∧
    (0 : ℚ) < 1 ∧ (10 : ℚ) ≠ 1 := by
  refine ⟨?_, by norm_num, by norm_num⟩
  norm_num +decide [listenFromInit, jsTruthy, truthy, jsTypeof, strOfJ, numOfJ]

/-- C7 amended: for every NONZERO supplied interval below 1 the effective
    interval is exactly 1 (silent clamp, no error), for every interval of
    at least 1 the supplied value is used unchanged, and the interval
    value never affects whether validation succeeds — but a supplied 0 is
    falsy and falls back to the default of 10 instead of being clamped. -/
theorem interval_clamping (key : Option Json) (opts : OptionsJs) (env : Option Json)
    (q : ℚ) (cfg : Config) :
    (opts.interval = some q → q ≠ 0 → q < 1 →
      listenFromInit key opts env = .ok cfg → cfg.interval = 1) ∧
    (opts.interval = some q → 1 ≤ q →
      listenFromInit key opts env = .ok cfg → cfg.interval = q) ∧
    (∀ i1 i2 : Option ℚ,
      isOkE (listenFromInit key { opts with interval := i1 } env) =
        isOkE (listenFromInit key { opts with interval := i2 } env)) := by
  refine ⟨?_, ?_, ?_⟩
  · intro hiv hq hlt h
    simp only [listenFromInit, hiv] at h
    rw [if_pos (bne_iff_ne.mpr hq), if_pos hlt] at h
    split_ifs at h <;> injection h with h <;> subst h <;> rfl
  · intro hiv hge h
    have hq : q ≠ 0 := by intro h0; rw [h0] at hge; norm_num at hge
    simp only [listenFromInit, hiv] at h
    rw [if_pos (bne_iff_ne.mpr hq), if_neg (not_lt.mpr hge)] at h
    split_ifs at h <;> injection h with h <;> subst h <;> rfl
  · intro i1 i2
    simp only [listenFromInit]
    split_ifs <;> rfl

/-- C7 witness: a supplied interval of one half is clamped to 1. -/
theorem interval_clamping_witness :
    ({ interval := 1, debug := false, endpoint := .str "http://x", requestTimeout := 5000,
       type := "t", timeout := 120, retroBack := 60 } : Config).interval = 1 :=
  (interval_clamping (some (.str "k"))
      { type := some (.str "t"), timeout := some (.num 120), retroBack := some (.num 60),
        interval := some (1/2), endpoint := some (.str "http://x") } none (1/2) _).1
    rfl (by norm_num) (by norm_num)
    (by norm_num +decide [listenFromInit, jsTruthy, truthy, jsTypeof, strOfJ, numOfJ])

theorem afterBudget_ok_ok (cfg : Config) (key : String) (start : ℚ) (att : Nat)
    (msgs : Json) (tC tE tF : ℚ) :
    afterBudget cfg key start att ⟨tC, .ok (.ok msgs), tE, tF⟩ =
      processMessages cfg key start att ⟨tC, .ok (.ok msgs), tE, tF⟩ msgs := rfl

theorem jsGet_mkMsg_type (ty d meta : Json) : jsGet (mkMsg ty d meta) "type" = some ty := by
  simp +decide [mkMsg, jsGet, lookupLast]

theorem jsGet_mkMsg_data (ty d meta : Json) : jsGet (mkMsg ty d meta) "data" = some d := by
  simp +decide [mkMsg, jsGet, lookupLast]

theorem jsGet_mkMsg_meta (ty d meta : Json) : jsGet (mkMsg ty d meta) "meta" = some meta := by
  simp +decide [mkMsg, jsGet, lookupLast]

theorem jsGet_singleton (key : String) (v : Json) : jsGet (.obj [(key, v)]) key = some v := by
  simp [jsGet, lookupLast]

theorem structValid_mkMsg (ty d meta : Json) :
    structValid (mkMsg ty d meta) =
      (truthy ty && truthy d && truthy meta &&
       isNumJ (optGet (some meta) "timestamp") && isNumJ (optGet (some meta) "expiration")) := by
  simp [structValid, jsGet_mkMsg_type, jsGet_mkMsg_data, jsGet_mkMsg_meta, jsTruthy_some]

/-- C8 counterexample: two fetched messages identical except for the
    `data` value — the string `X` versus the primitive `0` — give
    different outcomes on the same cycle: with `data = "X"` the cycle
    resolves Success, with `data = 0` the falsy data fails the
    structural validation and the cycle keeps polling, so the outcome
    does depend on the value of `data`. -/
theorem falsy_data_changes_outcome :
    ((runCycle
      { interval := 10, debug := false, endpoint := .str "http://x", requestTimeout := 5000,
        type := "t", timeout := 120, retroBack := 60 }
      "k1" 0 0
      ⟨1000, .ok (.ok (.obj [("k1", mkMsg (.str "t") (.str "X")
        (.obj [("timestamp", .num 100), ("expiration", .num 300)]))])),
       100000, 101000⟩).isSuccess = true) ∧
    ((runCycle
      { interval := 10, debug := false, endpoint := .str "http://x", requestTimeout := 5000,
        type := "t", timeout := 120, retroBack := 60 }
      "k1" 0 0
      ⟨1000, .ok (.ok (.obj [("k1", mkMsg (.str "t") (.num 0)
        (.obj [("timestamp", .num 100), ("expiration", .num 300)]))])),
       100000, 101000⟩).isSuccess = false) ∧
    structValid (mkMsg (.str "t") (.str "X")
      (.obj [("timestamp", .num 100), ("expiration", .num 300)])) = true ∧
    structValid (mkMsg (.str "t") (.num 0)
      (.obj [("timestamp", .num 100), ("expiration", .num 300)])) = false := by
  refine ⟨?_, ?_, by decide, by decide⟩ <;>
    norm_num +decide [runCycle, runCycleLog, afterBudget, processMessages, mkMsg,
      jsGet, lookupLast, jsTruthy, truthy, structValid, isTypeMatch, isNumJ, optGet, numOfJ]

set_option maxHeartbeats 2000000 in
/-- C8 amended: the `data` field is opaque to validation EXCEPT for a JS
    truthiness check (`!message.data`): for any two data values of equal
    truthiness, structural validity and whether the cycle resolves
    Success are identical; falsy data (0, empty string, false, null)
    fails structural validation. -/
theorem data_opaque_up_to_truthiness (cfg : Config) (key : String) (start : ℚ) (att : Nat)
    (ty d1 d2 meta : Json) (tC tE tF : ℚ)
    (h : truthy d1 = truthy d2) :
    structValid (mkMsg ty d1 meta) = structValid (mkMsg ty d2 meta) ∧
    (runCycle cfg key start att
        ⟨tC, .ok (.ok (.obj [(key, mkMsg ty d1 meta)])), tE, tF⟩).isSuccess =
      (runCycle cfg key start att
        ⟨tC, .ok (.ok (.obj [(key, mkMsg ty d2 meta)])), tE, tF⟩).isSuccess := by
  have hsv : structValid (mkMsg ty d1 meta) = structValid (mkMsg ty d2 meta) := by
    rw [structValid_mkMsg, structValid_mkMsg, h]
  refine ⟨hsv, ?_⟩
  by_cases hb : cfg.timeout * 1000 ≤ tC - start
  · rw [runCycle_budget _ _ _ _ _ hb, runCycle_budget _ _ _ _ _ hb]
  · rw [runCycle_no_budget _ _ _ _ _ (not_le.mp hb),
      runCycle_no_budget _ _ _ _ _ (not_le.mp hb)]
    rw [afterBudget_ok_ok, afterBudget_ok_ok]
    unfold processMessages
    simp only [jsGet_singleton, jsTruthy_some, Option.getD_some,
      jsGet_mkMsg_type, jsGet_mkMsg_data, jsGet_mkMsg_meta,
      show truthy (mkMsg ty d1 meta) = true from rfl,
      show truthy (mkMsg ty d2 meta) = true from rfl]
    rw [hsv]
    split_ifs <;> rfl

/-- C8 amended witness: two truthy data values — a string and a number —
    are interchangeable without affecting validity or the outcome. -/
theorem data_opaque_up_to_truthiness_witness :
    structValid (mkMsg (.str "t") (.str "X")
        (.obj [("timestamp", .num 100), ("expiration", .num 300)])) =
      structValid (mkMsg (.str "t") (.num 42)
        (.obj [("timestamp", .num 100), ("expiration", .num 300)])) ∧
    (runCycle
        { interval := 10, debug := false, endpoint := .str "http://x", requestTimeout := 5000,
          type := "t", timeout := 120, retroBack := 60 }
        "k1" 0 0
        ⟨1000, .ok (.ok (.obj [("k1", mkMsg (.str "t") (.str "X")
          (.obj [("timestamp", .num 100), ("expiration", .num 300)]))])),
         100000, 101000⟩).isSuccess =
      (runCycle
        { interval := 10, debug := false, endpoint := .str "http://x", requestTimeout := 5000,
          type := "t", timeout := 120, retroBack := 60 }
        "k1" 0 0
        ⟨1000, .ok (.ok (.obj [("k1", mkMsg (.str "t") (.num 42)
          (.obj [("timestamp", .num 100), ("expiration", .num 300)]))])),
         100000, 101000⟩).isSuccess :=
  data_opaque_up_to_truthiness _ "k1" 0 0 (.str "t") (.str "X") (.num 42)
    (.obj [("timestamp", .num 100), ("expiration", .num 300)]) 1000 100000 101000
    (by decide)

/-!  Debug-flag invariance lemmas. -/

theorem processMessages_fst_debug (cfg : Config) (b : Bool) (key : String) (start : ℚ)
    (att : Nat) (e : CycleEnv) (messages : Json) :
    (processMessages { cfg with debug := b } key start att e messages).1 =
      (processMessages cfg key start att e messages).1 := by
  dsimp only [processMessages]
  split_ifs <;> rfl

theorem afterBudget_fst_debug (cfg : Config) (b : Bool) (key : String) (start : ℚ)
    (att : Nat) (e : CycleEnv) :
    (afterBudget { cfg with debug := b } key start att e).1 =
      (afterBudget cfg key start att e).1 := by
  obtain ⟨tC, f, tE, tF⟩ := e
  cases f with
  | ok p =>
      cases p with
      | ok messages => exact processMessages_fst_debug ..
      | error m => rfl
  | httpError st sm => rfl
  | netError msg => rfl
  | reqTimeout t => rfl

theorem runCycle_debug (cfg : Config) (b : Bool) (key : String) (start : ℚ) (att : Nat)
    (e : CycleEnv) :
    runCycle { cfg with debug := b } key start att e = runCycle cfg key start att e := by
  unfold runCycle runCycleLog
  split_ifs <;> simp only [afterBudget_fst_debug]

theorem step_debug (cfg : Config) (b : Bool) (key : String) (start : ℚ) (s : LoopState)
    (e : CycleEnv) :
    step { cfg with debug := b } key start s e = step cfg key start s e := by
  simp only [step, runCycle_debug]

theorem run_debug (cfg : Config) (b : Bool) (key : String) (start : ℚ)
    (envs : List CycleEnv) :
    run { cfg with debug := b } key start envs = run cfg key start envs := by
  have hstep : step { cfg with debug := b } key start = step cfg key start :=
    funext fun s => funext fun e => step_debug cfg b key start s e
  unfold run
  rw [hstep]

/-- C9: the debug flag has no behavioral effect beyond diagnostic
    tracing: two calls identical in every input and every observed fetch
    response but the value of `debug` produce identical loop states —
    the same resolution (success flag, data, meta, elapsed time,
    attempts, or raised error) — and identical validation outcomes up to
    the recorded flag itself. -/
theorem debug_flag_no_behavioral_effect (cfg : Config) (b1 b2 : Bool) (key : String)
    (start : ℚ) (envs : List CycleEnv) (keyJ : Option Json) (opts : OptionsJs)
    (envEndpoint : Option Json) (d1 d2 : Option Bool) :
    run { cfg with debug := b1 } key start envs = run { cfg with debug := b2 } key start envs ∧
    (listenFromInit keyJ { opts with debug := d1 } envEndpoint).map
        (fun c => { c with debug := false }) =
      (listenFromInit keyJ { opts with debug := d2 } envEndpoint).map
        (fun c => { c with debug := false }) := by
  constructor
  · exact (run_debug cfg b1 key start envs).trans (run_debug cfg b2 key start envs).symm
  · simp only [listenFromInit]
    split_ifs <;> rfl

end HttpPubSub
